import Mathlib

/-!
Shallow embedding of the pet registry core (`meupet/models.py`): the `Pet`
data model, the `PetQuerySet` query layer, the `KindManager` aggregate
counter, and the `Pet` lifecycle methods (`change_status`, `request_action`,
`activate`, `deactivate`).

Modelling conventions:
- A Django queryset is a `List Pet` (the rows the filter chain runs over).
- Datetimes are `Int` (days since an epoch); `timezone.now()` and the
  `settings.DAYS_TO_STALE_REGISTER` configuration become explicit `now` /
  `days` parameters of the queries that read them.
- A foreign key to `Kind` is the (optional) joined `Kind` record itself, so
  `kind__id` / `kind__slug` lookups read through the option.
- Instance methods that mutate and `save()` become functions on a
  `PetState` carrying the in-memory instance (`mem`) and the stored row
  (`db`); `save` copies `mem` to `db`, and — as in
  `django_extensions.db.models.TimeStampedModel` — refreshes the `modified`
  timestamp unless called with `update_modified=False`.
- `hashlib.sha1(...).hexdigest()` is implemented in full (SHA-1 over byte
  lists, words as `Nat` reduced mod 2^32); `crypto.get_random_string(5)`
  becomes an explicit `seed` argument; the boolean result of the
  `services.send_*_email` collaborators becomes an explicit argument.
- Fields no claim touches (owner, description, city, size, sex,
  profile_picture, slug) are omitted from the record.
- `select_related('city')` is a fetch-strategy hint with no effect on which
  rows a queryset contains, so it has no counterpart here.
-/

/-- A `Kind` row: primary key, display name (`kind` column), and slug. -/
structure Kind where
  id : Nat
  kind : String
  slug : String
  deriving DecidableEq, Repr

/-- A `Pet` row, restricted to the fields the specification talks about.
`created` and `modified` come from `TimeStampedModel`. -/
structure Pet where
  name : String
  kind : Option Kind
  status : String
  published : Bool
  request_sent : Option Int
  request_key : String
  active : Bool
  created : Int
  modified : Int
  deriving DecidableEq, Repr

/-- Status code `Pet.MISSING = 'MI'`. -/
def Pet.MISSING : String := "MI"

/-- Status code `Pet.FOR_ADOPTION = 'FA'`. -/
def Pet.FOR_ADOPTION : String := "FA"

/-- Status code `Pet.ADOPTED = 'AD'`. -/
def Pet.ADOPTED : String := "AD"

/-- Status code `Pet.FOUND = 'FO'`. -/
def Pet.FOUND : String := "FO"

/-- `PetQuerySet.actives`: `self.filter(active=True)`. -/
def PetQuerySet.actives (qs : List Pet) : List Pet :=
  qs.filter (fun p => p.active)

/-- The `kind__id=n` lookup: the pet joins a kind whose pk is `n`
(a pet with no kind matches nothing). -/
def kindIdMatches (p : Pet) (n : Int) : Bool :=
  match p.kind with
  | some k => decide ((k.id : Int) = n)
  | none => false

/-- The `kind__slug=s` lookup: the pet joins a kind whose slug is `s`. -/
def kindSlugMatches (p : Pet) (s : String) : Bool :=
  match p.kind with
  | some k => decide (k.slug = s)
  | none => false

/-- Is the character an ASCII decimal digit? -/
def isDigitChar (c : Char) : Bool :=
  decide (48 ≤ c.toNat ∧ c.toNat ≤ 57)

/-- Value of a nonempty all-digit character list, else `none`. -/
def digitsVal (cs : List Char) : Option Nat :=
  if cs ≠ [] ∧ cs.all isDigitChar then
    some (cs.foldl (fun a c => a * 10 + (c.toNat - 48)) 0)
  else none

/-- Python `int(s)` on a string: an optional sign followed by decimal
digits parses; anything else raises `ValueError`, modelled as `none`
(exotic accepted forms — surrounding whitespace, digit-group underscores —
are not modelled). -/
def pyInt? (s : String) : Option Int :=
  match s.data with
  | '-' :: cs => (digitsVal cs).map (fun n => -(n : Int))
  | '+' :: cs => (digitsVal cs).map (fun n => (n : Int))
  | cs => (digitsVal cs).map (fun n => (n : Int))

/-- `PetQuerySet._filter_by_kind`: `int(kind)` succeeding dispatches to the
`kind__id` filter, a `ValueError` falls back to the `kind__slug` filter;
both branches start from `self.actives()`. -/
def PetQuerySet.filter_by_kind (qs : List Pet) (kind : String) : List Pet :=
  match pyInt? kind with
  | some n => (PetQuerySet.actives qs).filter (fun p => kindIdMatches p n)
  | none => (PetQuerySet.actives qs).filter (fun p => kindSlugMatches p kind)

/-- `PetQuerySet.get_lost_or_found`:
`self._filter_by_kind(kind).filter(status__in=[Pet.MISSING, Pet.FOUND])`. -/
def PetQuerySet.get_lost_or_found (qs : List Pet) (kind : String) : List Pet :=
  (PetQuerySet.filter_by_kind qs kind).filter
    (fun p => decide (p.status ∈ [Pet.MISSING, Pet.FOUND]))

/-- `PetQuerySet.get_for_adoption_adopted`:
`self._filter_by_kind(kind).filter(status__in=[Pet.FOR_ADOPTION, Pet.ADOPTED])`. -/
def PetQuerySet.get_for_adoption_adopted (qs : List Pet) (kind : String) : List Pet :=
  (PetQuerySet.filter_by_kind qs kind).filter
    (fun p => decide (p.status ∈ [Pet.FOR_ADOPTION, Pet.ADOPTED]))

/-- `PetQuerySet.get_unpublished_pets`: `self.filter(published=False)`. -/
def PetQuerySet.get_unpublished_pets (qs : List Pet) : List Pet :=
  qs.filter (fun p => decide (p.published = false))

/-- `PetQuerySet.get_staled_pets`: pets not modified since
`now - DAYS_TO_STALE_REGISTER`, with no `request_sent`, status `MISSING` or
`FOR_ADOPTION`. Note the source applies no `active` filter here. -/
def PetQuerySet.get_staled_pets (qs : List Pet) (now days : Int) : List Pet :=
  let stale_date := now - days
  qs.filter (fun p =>
    decide (p.modified < stale_date ∧ p.request_sent = none ∧
      p.status ∈ [Pet.MISSING, Pet.FOR_ADOPTION]))

/-- `PetQuerySet.get_expired_pets`: `self.filter(request_sent__lt=expire_date)`
(the SQL `<` on a nullable column drops `NULL` rows). -/
def PetQuerySet.get_expired_pets (qs : List Pet) (now days : Int) : List Pet :=
  let expire_date := now - days
  qs.filter (fun p =>
    match p.request_sent with
    | some t => decide (t < expire_date)
    | none => false)

/-- The pets joined by `KindManager`'s `pet__status__in=status, pet__active=True`
lookup for one kind row `k`. -/
def petsOfKind (pets : List Pet) (status : List String) (k : Kind) : List Pet :=
  pets.filter (fun p => decide (p.kind = some k ∧ p.status ∈ status ∧ p.active = true))

/-- `KindManager.count_pets`: kinds inner-joined to active pets in the given
status set, annotated with `num_pets=Count('pet')`, `order_by('kind')`
(ascending on the `kind` text column). Kinds with no matching pet produce no
row. -/
def KindManager.count_pets (kinds : List Kind) (pets : List Pet) (status : List String) :
    List (Kind × Nat) :=
  List.insertionSort (fun a b => a.1.kind ≤ b.1.kind)
    ((kinds.filter (fun k => !(petsOfKind pets status k).isEmpty)).map
      (fun k => (k, (petsOfKind pets status k).length)))

/-- `KindManager.lost_kinds`: `self.count_pets([Pet.MISSING, Pet.FOUND])`. -/
def KindManager.lost_kinds (kinds : List Kind) (pets : List Pet) : List (Kind × Nat) :=
  KindManager.count_pets kinds pets [Pet.MISSING, Pet.FOUND]

/-- `KindManager.adoption_kinds`: `self.count_pets([Pet.FOR_ADOPTION, Pet.ADOPTED])`. -/
def KindManager.adoption_kinds (kinds : List Kind) (pets : List Pet) : List (Kind × Nat) :=
  KindManager.count_pets kinds pets [Pet.FOR_ADOPTION, Pet.ADOPTED]

/-- `Pet.found_or_adopted`:
`self.status == self.ADOPTED or self.status == self.FOUND`. -/
def Pet.found_or_adopted (p : Pet) : Bool :=
  decide (p.status = Pet.ADOPTED) || decide (p.status = Pet.FOUND)

/-- `Pet.is_found_or_adopted`: `self.status in (self.ADOPTED, self.FOUND)`. -/
def Pet.is_found_or_adopted (p : Pet) : Bool :=
  decide (p.status ∈ [Pet.ADOPTED, Pet.FOUND])

/-- An in-memory `Pet` instance (`mem`) together with its stored row (`db`). -/
structure PetState where
  mem : Pet
  db : Pet
  deriving DecidableEq, Repr

/-- `self.save(...)` on a `TimeStampedModel`: refresh `modified` on the
instance unless `update_modified=False`, then write every field to the row. -/
def PetState.save (st : PetState) (now : Int) (update_modified : Bool) : PetState :=
  let m := if update_modified then { st.mem with modified := now } else st.mem
  { mem := m, db := m }

/-- `Pet.change_status`:
`self.status = self.FOUND if self.status == self.MISSING else self.ADOPTED`
then `self.save()`. -/
def PetState.change_status (st : PetState) (now : Int) : PetState :=
  PetState.save
    { st with mem :=
      { st.mem with status := if st.mem.status = Pet.MISSING then Pet.FOUND else Pet.ADOPTED } }
    now true

/-- `Pet.activate`: clear `request_sent` and `request_key`, set `active=True`,
`self.save()` (which does refresh `modified`). -/
def PetState.activate (st : PetState) (now : Int) : PetState :=
  PetState.save
    { st with mem := { st.mem with request_sent := none, request_key := "", active := true } }
    now true

/-- `Pet.deactivate`: bail out if `services.send_deactivate_email(self)` is
falsy, else set `active=False` and `self.save(update_modified=False)`. -/
def PetState.deactivate (st : PetState) (emailOk : Bool) (now : Int) : PetState :=
  if !emailOk then st
  else
    PetState.save { st with mem := { st.mem with active := false } } now false

/-! SHA-1 (`hashlib.sha1(...).hexdigest()`), over byte lists, with 32-bit
words carried as `Nat` reduced mod `2 ^ 32`. -/

/-- Reduce to a 32-bit word. -/
def w32 (n : Nat) : Nat := n % 4294967296

/-- Left-rotate a 32-bit word by `b` bits. -/
def rotl (b n : Nat) : Nat := w32 (n <<< b) ||| (n >>> (32 - b))

/-- UTF-8 encoding of one code point (what `.encode('utf-8')` does per char). -/
def utf8Bytes (c : Nat) : List Nat :=
  if c < 128 then [c]
  else if c < 2048 then [192 + c / 64, 128 + c % 64]
  else if c < 65536 then [224 + c / 4096, 128 + c / 64 % 64, 128 + c % 64]
  else [240 + c / 262144, 128 + c / 4096 % 64, 128 + c / 64 % 64, 128 + c % 64]

/-- UTF-8 bytes of a string. -/
def strBytes (s : String) : List Nat :=
  s.data.foldr (fun c acc => utf8Bytes c.toNat ++ acc) []

/-- Big-endian byte rendering of `n` on `k` bytes. -/
def beBytes : Nat → Nat → List Nat
  | 0, _ => []
  | k + 1, n => beBytes k (n / 256) ++ [n % 256]

/-- SHA-1 padding: append `0x80`, zero-fill to 56 mod 64, then the bit
length on 8 big-endian bytes. -/
def padMsg (msg : List Nat) : List Nat :=
  msg ++ [128] ++ List.replicate ((64 - (msg.length + 9) % 64) % 64) 0 ++
    beBytes 8 (8 * msg.length)

/-- Group bytes into big-endian 32-bit words. -/
def bytesToWords : List Nat → List Nat
  | a :: b :: c :: d :: rest => (((a * 256 + b) * 256 + c) * 256 + d) :: bytesToWords rest
  | _ => []

/-- Extend 16 schedule words to 80: `w i = rotl 1 (w (i-3) ^^^ w (i-8) ^^^
w (i-14) ^^^ w (i-16))`. `racc` holds the words produced so far, newest
first; `k` counts the words still to produce. -/
def extendGo : List Nat → Nat → List Nat
  | racc, 0 => racc.reverse
  | racc, k + 1 =>
    let w := rotl 1 (((racc.getD 2 0 ^^^ racc.getD 7 0) ^^^ racc.getD 13 0) ^^^ racc.getD 15 0)
    extendGo (w :: racc) k

/-- One SHA-1 round: round index `i`, schedule word `w`, state `(a,b,c,d,e)`. -/
def sha1Round (i : Nat) (w : Nat) (st : Nat × Nat × Nat × Nat × Nat) :
    Nat × Nat × Nat × Nat × Nat :=
  let a := st.1
  let b := st.2.1
  let c := st.2.2.1
  let d := st.2.2.2.1
  let e := st.2.2.2.2
  let f :=
    if i < 20 then (b &&& c) ||| ((b ^^^ 4294967295) &&& d)
    else if i < 40 then (b ^^^ c) ^^^ d
    else if i < 60 then ((b &&& c) ||| (b &&& d)) ||| (c &&& d)
    else (b ^^^ c) ^^^ d
  let k :=
    if i < 20 then 1518500249
    else if i < 40 then 1859775393
    else if i < 60 then 2400959708
    else 3395469782
  (w32 (rotl 5 a + f + e + k + w), a, rotl 30 b, c, d)

/-- Compress one 64-byte chunk into the running hash value. -/
def processChunk (h : Nat × Nat × Nat × Nat × Nat) (chunk : List Nat) :
    Nat × Nat × Nat × Nat × Nat :=
  let ws := extendGo (bytesToWords chunk).reverse 64
  let st := ws.enum.foldl (fun s iw => sha1Round iw.1 iw.2 s) h
  (w32 (h.1 + st.1), w32 (h.2.1 + st.2.1), w32 (h.2.2.1 + st.2.2.1),
    w32 (h.2.2.2.1 + st.2.2.2.1), w32 (h.2.2.2.2 + st.2.2.2.2))

/-- Fold `processChunk` over successive 64-byte chunks; `fuel` bounds the
recursion (the padded message is finite, so `fuel := length` suffices). -/
def sha1Go (fuel : Nat) (h : Nat × Nat × Nat × Nat × Nat) (l : List Nat) :
    Nat × Nat × Nat × Nat × Nat :=
  match fuel with
  | 0 => h
  | fuel + 1 =>
    if l.isEmpty then h
    else sha1Go fuel (processChunk h (l.take 64)) (l.drop 64)

/-- SHA-1 of a byte list: the five 32-bit state words of the digest. -/
def sha1 (msg : List Nat) : Nat × Nat × Nat × Nat × Nat :=
  sha1Go (padMsg msg).length
    (1732584193, 4023233417, 2562383102, 271733878, 3285377520) (padMsg msg)

/-- Lowercase hex digit for `n < 16`. -/
def hexDigit (n : Nat) : Char :=
  if n < 10 then Char.ofNat (48 + n) else Char.ofNat (87 + n)

/-- Is `c` a lowercase hex digit? -/
def isHexChar (c : Char) : Bool :=
  decide (c ∈ ("0123456789abcdef").data)

/-- The eight hex digits of a 32-bit word, most significant first. -/
def toHex8 (n : Nat) : List Char :=
  [hexDigit (n / 16 ^ 7 % 16), hexDigit (n / 16 ^ 6 % 16), hexDigit (n / 16 ^ 5 % 16),
    hexDigit (n / 16 ^ 4 % 16), hexDigit (n / 16 ^ 3 % 16), hexDigit (n / 16 ^ 2 % 16),
    hexDigit (n / 16 % 16), hexDigit (n % 16)]

/-- `hashlib.sha1(s.encode('utf-8')).hexdigest()`: the 40 lowercase hex
characters of the digest. -/
def sha1_hexdigest (s : String) : String :=
  let d := sha1 (strBytes s)
  String.mk (toHex8 d.1 ++ toHex8 d.2.1 ++ toHex8 d.2.2.1 ++ toHex8 d.2.2.2.1 ++
    toHex8 d.2.2.2.2)

/-- `Pet.request_action`: set `request_key` to the hex digest of a random
5-character seed concatenated with the pet's name; bail out (leaving the row
untouched) if `services.send_request_action_email(self)` is falsy; else set
`request_sent` to now and `self.save(update_modified=False)`. -/
def PetState.request_action (st : PetState) (seed : String) (emailOk : Bool) (now : Int) :
    PetState :=
  let m := { st.mem with request_key := sha1_hexdigest (seed ++ st.mem.name) }
  if !emailOk then { st with mem := m }
  else
    PetState.save { st with mem := { m with request_sent := some now } } now false

/-! Concrete rows used by witnesses and counterexamples. -/

/-- A sample kind row. -/
def dogKind : Kind := { id := 1, kind := "Dog", slug := "dog" }

/-- A second sample kind row, with no matching pet in the demos. -/
def catKind : Kind := { id := 2, kind := "Cat", slug := "cat" }

/-- A sample pet: active, missing, unpublished, no pending request. -/
def rexPet : Pet :=
  { name := "Rex", kind := some dogKind, status := Pet.MISSING, published := false,
    request_sent := none, request_key := "", active := true, created := 0, modified := 0 }

/-- An inactive copy of `rexPet`: stale by every other criterion. -/
def staleInactivePet : Pet := { rexPet with active := false }

/-- An active unpublished pet. -/
def unpubActivePet : Pet := { rexPet with name := "Bob" }

/-- An inactive unpublished pet. -/
def unpubInactivePet : Pet := { rexPet with name := "Tom", active := false }

/-- The `mem`/`db` pair for a freshly loaded `rexPet`. -/
def rexState : PetState := { mem := rexPet, db := rexPet }

section SortInstances

instance : IsTotal (Kind × Nat) (fun a b => a.1.kind ≤ b.1.kind) :=
  ⟨fun a b => le_total a.1.kind b.1.kind⟩

instance : IsTrans (Kind × Nat) (fun a b => a.1.kind ≤ b.1.kind) :=
  ⟨fun _ _ _ h1 h2 => le_trans h1 h2⟩

end SortInstances

/-! Helper lemmas shared by the claim theorems. -/

/-- Every value `hexDigit` takes on an argument below 16 is a hex character. -/
theorem hexDigit_isHex : ∀ n, n < 16 → isHexChar (hexDigit n) = true := by decide

/-- Every character of `toHex8 n` is a hex character. -/
theorem toHex8_isHex (n : Nat) : ∀ c ∈ toHex8 n, isHexChar c = true := by
  intro c hc
  simp only [toHex8, List.mem_cons, List.not_mem_nil, or_false] at hc
  rcases hc with h | h | h | h | h | h | h | h <;> subst h <;>
    exact hexDigit_isHex _ (Nat.mod_lt _ (by norm_num))

/-- A SHA-1 hex digest has exactly 40 characters. -/
theorem sha1_hexdigest_length (s : String) : (sha1_hexdigest s).length = 40 := by
  simp [sha1_hexdigest, String.length, toHex8]

/-- Every character of a SHA-1 hex digest is a hex character. -/
theorem sha1_hexdigest_isHex (s : String) :
    ∀ c ∈ (sha1_hexdigest s).data, isHexChar c = true := by
  intro c hc
  simp only [sha1_hexdigest, String.mk, List.mem_append] at hc
  rcases hc with ((((h | h) | h) | h) | h) <;> exact toHex8_isHex _ c h

/-! Claim theorems. -/

/-- C3: if the send-deactivate-email collaborator reports failure,
`deactivate` leaves the pet's entire state unchanged; if it reports success,
`deactivate` sets `active=false` and persists, leaving the modification
timestamp unchanged from before the call. -/
theorem deactivate_spec (st : PetState) (now : Int) :
    PetState.deactivate st false now = st ∧
    (PetState.deactivate st true now).mem.active = false ∧
    (PetState.deactivate st true now).db.active = false ∧
    (PetState.deactivate st true now).mem.modified = st.mem.modified ∧
    (PetState.deactivate st true now).db.modified = st.mem.modified ∧
    (PetState.deactivate st true now).db = (PetState.deactivate st true now).mem :=
  ⟨rfl, rfl, rfl, rfl, rfl, rfl⟩

/-- C5: `change_status` sets the status to `FOUND` when it is `MISSING` and
to `ADOPTED` in every other case; from `MISSING`, one call yields `FOUND`,
a second call yields `ADOPTED`, never reverting to `MISSING`. -/
theorem change_status_spec (st : PetState) (t1 t2 : Int) :
    (st.mem.status = Pet.MISSING →
      (PetState.change_status st t1).mem.status = Pet.FOUND ∧
      (PetState.change_status (PetState.change_status st t1) t2).mem.status = Pet.ADOPTED) ∧
    (st.mem.status ≠ Pet.MISSING →
      (PetState.change_status st t1).mem.status = Pet.ADOPTED) ∧
    (PetState.change_status st t1).db = (PetState.change_status st t1).mem ∧
    Pet.ADOPTED ≠ Pet.MISSING := by
  refine ⟨fun h => ⟨?_, ?_⟩, fun h => ?_, rfl, by decide⟩
  · simp [PetState.change_status, PetState.save, h]
  · simp [PetState.change_status, PetState.save, h, Pet.FOUND, Pet.MISSING]
  · simp [PetState.change_status, PetState.save, h]

/-- C5 witness: on a concrete missing pet, one `change_status` call yields
`FOUND`. -/
theorem change_status_spec_witness :
    (PetState.change_status rexState 1).mem.status = Pet.FOUND :=
  ((change_status_spec rexState 1 2).1 rfl).1

/-- C6: `activate` is idempotent: after one or two calls, `request_sent` is
cleared, `request_key` is empty and `active` is true, and a repeated call
does not change the resulting state. -/
theorem activate_idempotent_spec (st : PetState) (t1 t2 : Int) :
    ((PetState.activate st t1).mem.request_sent = none ∧
      (PetState.activate st t1).mem.request_key = "" ∧
      (PetState.activate st t1).mem.active = true ∧
      (PetState.activate st t1).db = (PetState.activate st t1).mem) ∧
    ((PetState.activate (PetState.activate st t1) t2).mem.request_sent = none ∧
      (PetState.activate (PetState.activate st t1) t2).mem.request_key = "" ∧
      (PetState.activate (PetState.activate st t1) t2).mem.active = true) ∧
    PetState.activate (PetState.activate st t1) t1 = PetState.activate st t1 :=
  ⟨⟨rfl, rfl, rfl, rfl⟩, ⟨rfl, rfl, rfl⟩, rfl⟩

/-- C10: `found_or_adopted` and `is_found_or_adopted` agree on every pet,
and both hold exactly when the status is `ADOPTED` or `FOUND`. -/
theorem found_or_adopted_spec (p : Pet) :
    p.found_or_adopted = p.is_found_or_adopted ∧
    (p.found_or_adopted = true ↔ (p.status = Pet.ADOPTED ∨ p.status = Pet.FOUND)) := by
  by_cases h1 : p.status = Pet.ADOPTED <;> by_cases h2 : p.status = Pet.FOUND <;>
    simp [Pet.found_or_adopted, Pet.is_found_or_adopted, h1, h2]

/-- C10 witness: the two predicates agree on a concrete pet. -/
theorem found_or_adopted_spec_witness :
    rexPet.found_or_adopted = rexPet.is_found_or_adopted :=
  (found_or_adopted_spec rexPet).1

/-- C1 counterexample: an inactive pet that is stale by every other
criterion is returned by `get_staled_pets`, so the claim that no inactive
pet appears in the result is false on the code. -/
theorem get_staled_pets_inactive_cex :
    staleInactivePet ∈ PetQuerySet.get_staled_pets [staleInactivePet] 100 30 ∧
      staleInactivePet.active = false := by decide

/-- C1 (amended): `get_staled_pets` returns exactly the pets — active or
not — with status `MISSING` or `FOR_ADOPTION`, no `request_sent`, and a
modification timestamp older than `now - days`. -/
theorem get_staled_pets_spec (qs : List Pet) (now days : Int) (p : Pet) :
    p ∈ PetQuerySet.get_staled_pets qs now days ↔
      p ∈ qs ∧ p.modified < now - days ∧ p.request_sent = none ∧
        (p.status = Pet.MISSING ∨ p.status = Pet.FOR_ADOPTION) := by
  simp [PetQuerySet.get_staled_pets, List.mem_filter]

/-- C1 witness: a concrete stale missing pet is returned. -/
theorem get_staled_pets_spec_witness :
    rexPet ∈ PetQuerySet.get_staled_pets [rexPet] 100 30 :=
  (get_staled_pets_spec [rexPet] 100 30 rexPet).mpr
    ⟨by decide, by decide, rfl, Or.inl rfl⟩

/-- C2: `_filter_by_kind` filters by the kind's numeric id when the
identifier parses as an integer and by the kind's slug otherwise, and in
either branch every returned pet is active. -/
theorem filter_by_kind_spec (qs : List Pet) (kind : String) :
    (∀ p, p ∈ PetQuerySet.filter_by_kind qs kind ↔
      p ∈ qs ∧ p.active = true ∧
        (match pyInt? kind with
         | some n => kindIdMatches p n = true
         | none => kindSlugMatches p kind = true)) ∧
    (∀ p, p ∈ PetQuerySet.filter_by_kind qs kind → p.active = true) := by
  have hiff : ∀ p, p ∈ PetQuerySet.filter_by_kind qs kind ↔
      p ∈ qs ∧ p.active = true ∧
        (match pyInt? kind with
         | some n => kindIdMatches p n = true
         | none => kindSlugMatches p kind = true) := by
    intro p
    cases h : pyInt? kind with
    | some n =>
      simp only [PetQuerySet.filter_by_kind, PetQuerySet.actives, h, List.mem_filter]
      tauto
    | none =>
      simp only [PetQuerySet.filter_by_kind, PetQuerySet.actives, h, List.mem_filter]
      tauto
  exact ⟨hiff, fun p hp => ((hiff p).mp hp).2.1⟩

/-- C2 witness: a concrete slug lookup returns only active pets. -/
theorem filter_by_kind_spec_witness : rexPet.active = true :=
  (filter_by_kind_spec [rexPet] "dog").2 rexPet (by decide)

/-- C7: every pet returned by `get_lost_or_found` has status `MISSING` or
`FOUND`, every pet returned by `get_for_adoption_adopted` has status
`FOR_ADOPTION` or `ADOPTED`, and no pet appears in both results. -/
theorem lost_adoption_disjoint_spec (qs : List Pet) (kind : String) (p : Pet) :
    (p ∈ PetQuerySet.get_lost_or_found qs kind →
      (p.status = Pet.MISSING ∨ p.status = Pet.FOUND)) ∧
    (p ∈ PetQuerySet.get_for_adoption_adopted qs kind →
      (p.status = Pet.FOR_ADOPTION ∨ p.status = Pet.ADOPTED)) ∧
    ¬(p ∈ PetQuerySet.get_lost_or_found qs kind ∧
      p ∈ PetQuerySet.get_for_adoption_adopted qs kind) := by
  refine ⟨fun h => ?_, fun h => ?_, fun h => ?_⟩
  · simp [PetQuerySet.get_lost_or_found, List.mem_filter] at h
    exact h.2
  · simp [PetQuerySet.get_for_adoption_adopted, List.mem_filter] at h
    exact h.2
  · obtain ⟨h1, h2⟩ := h
    simp [PetQuerySet.get_lost_or_found, PetQuerySet.get_for_adoption_adopted,
      List.mem_filter] at h1 h2
    rcases h1.2 with h | h <;> rcases h2.2 with h' | h' <;>
      simp [h, Pet.MISSING, Pet.FOUND, Pet.FOR_ADOPTION, Pet.ADOPTED] at h'

/-- C7 witness: a concrete pet is not in both query results. -/
theorem lost_adoption_disjoint_spec_witness :
    ¬(rexPet ∈ PetQuerySet.get_lost_or_found [rexPet] "dog" ∧
      rexPet ∈ PetQuerySet.get_for_adoption_adopted [rexPet] "dog") :=
  (lost_adoption_disjoint_spec [rexPet] "dog" rexPet).2.2

/-- C8: `actives` never returns an inactive pet, `get_unpublished_pets`
returns exactly the pets with `published=false`, and on a concrete pool the
unpublished result holds both an active and an inactive pet. -/
theorem actives_unpublished_spec (qs : List Pet) (p : Pet) :
    (p ∈ PetQuerySet.actives qs → p.active = true) ∧
    (p ∈ PetQuerySet.get_unpublished_pets qs ↔ p ∈ qs ∧ p.published = false) ∧
    (unpubActivePet ∈ PetQuerySet.get_unpublished_pets [unpubActivePet, unpubInactivePet] ∧
      unpubInactivePet ∈ PetQuerySet.get_unpublished_pets [unpubActivePet, unpubInactivePet] ∧
      unpubActivePet.active = true ∧ unpubInactivePet.active = false) := by
  refine ⟨fun h => ?_, ?_, by decide⟩
  · simp [PetQuerySet.actives, List.mem_filter] at h
    exact h.2
  · simp [PetQuerySet.get_unpublished_pets, List.mem_filter]

/-- C8 witness: both an active and an inactive unpublished pet appear in a
concrete `get_unpublished_pets` result. -/
theorem actives_unpublished_spec_witness :
    unpubActivePet ∈ PetQuerySet.get_unpublished_pets [unpubActivePet, unpubInactivePet] ∧
      unpubInactivePet ∈ PetQuerySet.get_unpublished_pets [unpubActivePet, unpubInactivePet] ∧
      unpubActivePet.active = true ∧ unpubInactivePet.active = false :=
  (actives_unpublished_spec [] rexPet).2.2

/-- C4: `request_action` sets `request_key` (in memory, in both outcomes) to
the 40-character hex digest of the 5-character seed concatenated with the
pet's name; on collaborator failure the stored row is untouched and
`request_sent` stays null on both the instance and the row; on success
`request_sent` becomes the current time and is persisted without touching
the modification timestamp. -/
theorem request_action_spec (st : PetState) (seed : String) (now : Int)
    (h5 : seed.length = 5) (hmem : st.mem.request_sent = none)
    (hdb : st.db.request_sent = none) :
    ((sha1_hexdigest (seed ++ st.mem.name)).length = 40 ∧
      ∀ c ∈ (sha1_hexdigest (seed ++ st.mem.name)).data, isHexChar c = true) ∧
    (PetState.request_action st seed false now).mem.request_key =
      sha1_hexdigest (seed ++ st.mem.name) ∧
    (PetState.request_action st seed false now).db = st.db ∧
    (PetState.request_action st seed false now).mem.request_sent = none ∧
    (PetState.request_action st seed false now).db.request_sent = none ∧
    (PetState.request_action st seed false now).db.request_key = st.db.request_key ∧
    (PetState.request_action st seed true now).mem.request_key =
      sha1_hexdigest (seed ++ st.mem.name) ∧
    (PetState.request_action st seed true now).db.request_sent = some now ∧
    (PetState.request_action st seed true now).db.modified = st.mem.modified ∧
    (PetState.request_action st seed true now).db =
      (PetState.request_action st seed true now).mem :=
  ⟨⟨sha1_hexdigest_length _, sha1_hexdigest_isHex _⟩,
    rfl, rfl, hmem, hdb, rfl, rfl, rfl, rfl, rfl⟩

/-- C4 witness: on a concrete pet, a failed collaborator call leaves the
stored `request_sent` null. -/
theorem request_action_spec_witness :
    (PetState.request_action rexState "abcde" false 7).db.request_sent = none :=
  (request_action_spec rexState "abcde" 7 rfl rfl rfl).2.2.2.2.1

/-- C9: `count_pets` reports, per kind, the number of active pets of that
kind whose status lies in the given set; a reported kind is one of the
given kinds and its count is positive (kinds with no matching pet are
omitted); the result is sorted on the `kind` column; and `lost_kinds` /
`adoption_kinds` are `count_pets` on the two status tracks. -/
theorem count_pets_spec (kinds : List Kind) (pets : List Pet) (status : List String) :
    (∀ k n, (k, n) ∈ KindManager.count_pets kinds pets status →
      k ∈ kinds ∧ n = (petsOfKind pets status k).length ∧ 0 < n) ∧
    (∀ k, k ∈ kinds → petsOfKind pets status k ≠ [] →
      (k, (petsOfKind pets status k).length) ∈ KindManager.count_pets kinds pets status) ∧
    List.Sorted (fun a b => a.1.kind ≤ b.1.kind) (KindManager.count_pets kinds pets status) ∧
    KindManager.lost_kinds kinds pets =
      KindManager.count_pets kinds pets [Pet.MISSING, Pet.FOUND] ∧
    KindManager.adoption_kinds kinds pets =
      KindManager.count_pets kinds pets [Pet.FOR_ADOPTION, Pet.ADOPTED] := by
  refine ⟨?_, ?_, ?_, rfl, rfl⟩
  · intro k n h
    simp only [KindManager.count_pets, List.mem_insertionSort, List.mem_map,
      List.mem_filter] at h
    obtain ⟨k', ⟨hk1, hk2⟩, heq⟩ := h
    rw [Prod.mk.injEq] at heq
    obtain ⟨h1, h2⟩ := heq
    subst h1
    subst h2
    refine ⟨hk1, rfl, ?_⟩
    simp only [Bool.not_eq_true'] at hk2
    rw [List.isEmpty_eq_false] at hk2
    exact List.length_pos.mpr hk2
  · intro k hk hne
    simp only [KindManager.count_pets, List.mem_insertionSort, List.mem_map,
      List.mem_filter]
    refine ⟨k, ⟨hk, ?_⟩, rfl⟩
    simp only [Bool.not_eq_true']
    rw [List.isEmpty_eq_false]
    exact hne
  · exact List.sorted_insertionSort _ _

/-- C9 witness: a concrete count row carries the exact number of matching
active pets. -/
theorem count_pets_spec_witness :
    dogKind ∈ [dogKind, catKind] ∧
      1 = (petsOfKind [rexPet] [Pet.MISSING, Pet.FOUND] dogKind).length ∧ 0 < 1 :=
  (count_pets_spec [dogKind, catKind] [rexPet] [Pet.MISSING, Pet.FOUND]).1 dogKind 1 (by decide)
